import Mathlib

/-
Verification of the boneka marketplace backend: a shallow embedding of the
request / offer / order flow from `models.py`, `routers/offer.py`,
`routers/orders.py` and `routers/request.py`, together with theorems that
settle the specification claims about it.

Modelling conventions:
* UUID primary keys become `Nat`; freshly generated ids are drawn from a
  `nextId` counter on the database value (uuid4 collisions are ignored, as
  in the source).
* `Numeric(12,2)` money columns become `Rat` (exact decimal arithmetic);
  the source converts `Decimal` to `float` when building an order, which is
  exact for in-range two-decimal values and is modelled as the identity.
* Timestamps become a `Nat` tick supplied by the caller; within one request
  the source calls `datetime.now` several times, all modelled as the same
  tick, which no claim distinguishes.
* A SQLAlchemy session is modelled by explicit state passing: every
  endpoint maps a committed database and a payload to the committed
  database it leaves behind plus an `Except` result.  `commit` enforces the
  declared unique constraints on `orders.request_id` and `orders.offer_id`
  (models.py lines 176 and 181); a failed commit raises and the handlers
  roll back to the previously committed state, exactly as the `except`
  blocks in the routers do.
* Rows are stored in lists; `query(...).first()` is `List.find?`,
  `query(...).all()` plus a mutating loop (or `.update()`) is `List.map`
  with a per-row conditional, and `db.add` of a new row is `List.cons`.
-/

namespace Boneka

/-- Error taxonomy of the routers: 404, 403, 400, 409, 500 responses plus an
unhandled Python `TypeError` (which FastAPI surfaces as a 500). -/
inductive Err where
  | notFound
  | forbidden
  | invalidState
  | conflict
  | internal
  | typeError
deriving DecidableEq, Repr

deriving instance DecidableEq for Except

/-- users table (models.py `User`): only the columns the verified routes
read.  `role` is one of "customer", "supplier", "admin", "both". -/
structure User where
  id : Nat
  role : String
deriving DecidableEq, Repr

/-- products table (models.py `Product`): the columns used by the category
check in `create_offer`. -/
structure Product where
  id : Nat
  supplier_id : Nat
  category : String
deriving DecidableEq, Repr

/-- request_posts table (models.py `RequestPost`). -/
structure RequestPost where
  id : Nat
  customer_id : Nat
  title : String
  description : Option String
  category : String
  offer_price : Option Rat
  quantity : Nat
  status : String
  created_at : Nat
  updated_at : Option Nat
deriving DecidableEq, Repr

/-- offers table (models.py `Offer`). -/
structure Offer where
  id : Nat
  request_id : Nat
  supplier_id : Nat
  proposed_price : Rat
  message : Option String
  delivery_date : Option Nat
  status : String
  created_at : Nat
  updated_at : Option Nat
deriving DecidableEq, Repr

/-- orders table (models.py `Order`).  `request_id` and `offer_id` carry
unique constraints in the source schema. -/
structure Order where
  id : Nat
  request_id : Nat
  offer_id : Nat
  customer_id : Nat
  supplier_id : Nat
  total_price : Rat
  quantity : Nat
  status : String
  created_at : Nat
  updated_at : Option Nat
  delivered_at : Option Nat
deriving DecidableEq, Repr

/-- The committed database: one list per table plus the id generator. -/
structure DB where
  users : List User
  products : List Product
  requests : List RequestPost
  offers : List Offer
  orders : List Order
  nextId : Nat
deriving DecidableEq, Repr

/-- Payload of POST /offers/ (schemas/offer_schema.py `OfferCreate`). -/
structure OfferCreate where
  request_id : Nat
  supplier_id : Nat
  proposed_price : Rat
  message : Option String
  delivery_date : Option Nat
deriving DecidableEq, Repr

/-- Payload of PATCH /offers/\x7boffer_id\x7d/action (schemas/offer_schema.py
`OfferAction`): note it carries no caller id, only a role string. -/
structure OfferAction where
  offer_id : Nat
  action : String
  role : String
deriving DecidableEq, Repr

/-- Payload of POST /orders/confirm-offer (schemas/orders_schema.py
`OrderCreateFromOffer`).  `respond_to_offer` also passes a `supplier_id`
keyword, which the pydantic model ignores. -/
structure OrderCreateFromOffer where
  customer_id : Nat
  offer_id : Nat
deriving DecidableEq, Repr

/-- Payload of PATCH /orders/\x7border_id\x7d/status.  Modelled from the spec:
the class `OrderStatusAction` is imported by routers/orders.py but its
definition is missing from the source tree; its fields (order_id, user_id,
action, role) are those the handler reads, matching the spec contract
`AdvanceOrderStatus(orderID, callerID, callerRole, action)`. -/
structure OrderStatusAction where
  order_id : Nat
  user_id : Nat
  action : String
  role : String
deriving DecidableEq, Repr

/-- Payload of POST /requests/\x7brequest_id\x7d/supplier-action
(schemas/request_schema.py `SupplierRequestAction`). -/
structure SupplierRequestAction where
  request_id : Nat
  supplier_id : Nat
  action : String
  proposed_price : Option Rat
deriving DecidableEq, Repr

/-- Payload of PUT /requests/\x7brequest_id\x7d (schemas/request_schema.py
`RequestUpdate`): every field optional; `none` means absent from the patch
(`model_dump(exclude_unset=True)`). -/
structure RequestUpdate where
  title : Option String
  description : Option String
  category : Option String
  offer_price : Option Rat
  quantity : Option Nat
  status : Option String
deriving DecidableEq, Repr

/-- True when no two rows of the list share the value of `f` — the shape of
a database unique constraint on that column. -/
def uniqueBy (f : Order → Nat) : List Order → Bool
  | [] => true
  | o :: rest => !(rest.any (fun o2 => f o2 == f o)) && uniqueBy f rest

/-- The unique constraints checked at commit time: models.py declares
`Order.request_id` and `Order.offer_id` with `unique=True`. -/
def commitOk (db : DB) : Bool :=
  uniqueBy (fun o => o.request_id) db.orders && uniqueBy (fun o => o.offer_id) db.orders

/-- `db.commit()` inside a `try` block: on success the working state `cur`
becomes the committed state; on a constraint violation the handler rolls
back to the previously committed state `pre` and answers 500. -/
def tryCommit {α : Type} (pre cur : DB) (a : α) : DB × Except Err α :=
  if commitOk cur then (cur, Except.ok a) else (pre, Except.error Err.internal)

/-- routers/request.py `get_user` (the temporary auth stand-in): looks the
user up by id, 404 when absent. -/
def get_user (db : DB) (user_id : Nat) : Except Err User :=
  match db.users.find? (fun u => u.id == user_id) with
  | some u => Except.ok u
  | none => Except.error Err.notFound

/-- routers/request.py `require_supplier`: roles "supplier" and "both" pass. -/
def require_supplier (db : DB) (user_id : Nat) : Except Err User :=
  match get_user db user_id with
  | Except.error e => Except.error e
  | Except.ok u =>
      if u.role != "supplier" && u.role != "both" then Except.error Err.forbidden
      else Except.ok u

/-- routers/request.py `require_customer_of_request`.  The source body
begins with `get_user(role="customer", db=db)`, but `get_user` has no
parameter named `role`, so Python raises `TypeError` at the call site on
every invocation; the ownership and existence checks below that line are
unreachable. -/
def require_customer_of_request (_db : DB) (_request_id : Nat) : Except Err RequestPost :=
  Except.error Err.typeError

/-- routers/offer.py `create_offer` (POST /offers/). -/
def create_offer (db : DB) (inp : OfferCreate) (now : Nat) : DB × Except Err Offer :=
  match db.requests.find? (fun r => r.id == inp.request_id) with
  | none => (db, Except.error Err.notFound)
  | some request =>
    if request.status != "open" then (db, Except.error Err.invalidState)
    else
      match db.users.find? (fun u => u.id == inp.supplier_id) with
      | none => (db, Except.error Err.forbidden)
      | some supplier =>
        if supplier.role != "supplier" then (db, Except.error Err.forbidden)
        else if !((db.products.filter (fun p => p.supplier_id == supplier.id)).any
              (fun p => p.category == request.category)) then
          (db, Except.error Err.forbidden)
        else
          match db.offers.find? (fun o =>
              o.request_id == inp.request_id && o.supplier_id == inp.supplier_id &&
              o.status == "pending") with
          | some _ => (db, Except.error Err.conflict)
          | none =>
            let newOffer : Offer :=
              { id := db.nextId, request_id := inp.request_id, supplier_id := inp.supplier_id,
                proposed_price := inp.proposed_price, message := inp.message,
                delivery_date := inp.delivery_date, status := "pending",
                created_at := now, updated_at := none }
            tryCommit db { db with offers := newOffer :: db.offers, nextId := db.nextId + 1 } newOffer

/-- routers/offer.py `get_offers_by_supplier` (GET /offers/by-supplier/):
only the authorization guard and the row filter; the joined display fields
are presentation only. -/
def get_offers_by_supplier (db : DB) (supplier_id : Nat) : Except Err (List Offer) :=
  match db.users.find? (fun u => u.id == supplier_id) with
  | none => Except.error Err.forbidden
  | some supplier =>
    if supplier.role != "supplier" && supplier.role != "both" then Except.error Err.forbidden
    else Except.ok (db.offers.filter (fun o =>
      o.supplier_id == supplier_id && o.status != "accepted"))

/-- The offer statuses a customer may respond to. -/
def pcSet (s : String) : Bool := s == "pending" || s == "countered"

/-- Per-row effect of the accept branch of `respond_to_offer`: the target
offer becomes accepted, and every other offer on the same request whose
status is pending or countered becomes rejected. -/
def acceptUpd (targetId reqId now : Nat) (o : Offer) : Offer :=
  if o.id == targetId then { o with status := "accepted", updated_at := some now }
  else if o.request_id == reqId && pcSet o.status then
    { o with status := "rejected", updated_at := some now }
  else o

/-- Per-row effect of marking one request fulfilled. -/
def fulfillReq (rid now : Nat) (r : RequestPost) : RequestPost :=
  if r.id == rid then { r with status := "fulfilled", updated_at := some now } else r

/-- Per-row effect of confirm marking the confirmed offer accepted. -/
def confirmOfferUpd (targetId now : Nat) (o : Offer) : Offer :=
  if o.id == targetId then { o with status := "accepted", updated_at := some now } else o

/-- routers/orders.py `confirm_offer_and_create_order`
(POST /orders/confirm-offer).  The offer status precondition in the source
is commented out; the duplicate-order check is on `offer_id` only. -/
def confirm_offer_and_create_order (db : DB) (od : OrderCreateFromOffer) (now : Nat) :
    DB × Except Err Order :=
  match db.users.find? (fun u => u.id == od.customer_id) with
  | none => (db, Except.error Err.notFound)
  | some customer =>
    match db.offers.find? (fun o => o.id == od.offer_id) with
    | none => (db, Except.error Err.notFound)
    | some offer =>
      match db.requests.find? (fun r => r.id == offer.request_id) with
      | none => (db, Except.error Err.notFound)
      | some request =>
        if request.customer_id != customer.id then (db, Except.error Err.forbidden)
        else
          match db.orders.find? (fun x => x.offer_id == offer.id) with
          | some _ => (db, Except.error Err.conflict)
          | none =>
            let newOrder : Order :=
              { id := db.nextId, request_id := request.id, offer_id := offer.id,
                customer_id := customer.id, supplier_id := offer.supplier_id,
                total_price := offer.proposed_price, quantity := request.quantity,
                status := "placed", created_at := now, updated_at := none,
                delivered_at := none }
            let db2 : DB :=
              { db with
                orders := newOrder :: db.orders,
                offers := db.offers.map (confirmOfferUpd offer.id now),
                requests := db.requests.map (fulfillReq request.id now),
                nextId := db.nextId + 1 }
            tryCommit db db2 newOrder

/-- Working state of the accept branch of `respond_to_offer` before its
first commit: target offer accepted, siblings rejected, request fulfilled. -/
def acceptDB1 (db : DB) (off : Offer) (req : RequestPost) (now : Nat) : DB :=
  { db with
    offers := db.offers.map (acceptUpd off.id off.request_id now),
    requests := db.requests.map (fulfillReq req.id now) }

/-- routers/offer.py `respond_to_offer` (PATCH /offers/\x7boffer_id\x7d/action).
`acting_user` is looked up by the request post customer id — for both the
customer and the supplier branch.  The accept branch commits the cascade
first and only then calls `confirm_offer_and_create_order`; an exception
from that call is answered with a rollback, which can no longer undo the
already committed cascade. -/
def respond_to_offer (db : DB) (a : OfferAction) (now : Nat) : DB × Except Err Offer :=
  match db.offers.find? (fun o => o.id == a.offer_id) with
  | none => (db, Except.error Err.notFound)
  | some offer =>
    match db.requests.find? (fun r => r.id == offer.request_id) with
    | none => (db, Except.error Err.notFound)
    | some request =>
      match db.users.find? (fun u => u.id == request.customer_id) with
      | none => (db, Except.error Err.notFound)
      | some acting_user =>
        if a.role == "customer" then
          if !(pcSet offer.status) then (db, Except.error Err.invalidState)
          else if a.action == "accept" then
            let db1 : DB := acceptDB1 db offer request now
            if commitOk db1 then
              let payload : OrderCreateFromOffer :=
                { customer_id := acting_user.id, offer_id := offer.id }
              let res := confirm_offer_and_create_order db1 payload now
              match res.2 with
              | Except.ok _ =>
                  (res.1, Except.ok (((res.1.offers.find? (fun o => o.id == a.offer_id)).getD offer)))
              | Except.error e => (res.1, Except.error e)
            else (db, Except.error Err.internal)
          else if a.action == "reject" then
            let db1 : DB :=
              { db with offers := db.offers.map (fun o =>
                  if o.id == offer.id then { o with status := "rejected", updated_at := some now }
                  else o) }
            tryCommit db db1 { offer with status := "rejected", updated_at := some now }
          else if a.action == "counter" then
            let db1 : DB :=
              { db with offers := db.offers.map (fun o =>
                  if o.id == offer.id then { o with status := "countered", updated_at := some now }
                  else o) }
            tryCommit db db1 { offer with status := "countered", updated_at := some now }
          else (db, Except.error Err.invalidState)
        else if a.role == "supplier" then
          if offer.supplier_id != acting_user.id then (db, Except.error Err.forbidden)
          else if offer.status != "pending" then (db, Except.error Err.invalidState)
          else if a.action == "cancel_by_supplier" then
            let db1 : DB :=
              { db with offers := db.offers.map (fun o =>
                  if o.id == offer.id then
                    { o with status := "cancelled_by_supplier", updated_at := some now }
                  else o) }
            tryCommit db db1 { offer with status := "cancelled_by_supplier", updated_at := some now }
          else (db, Except.error Err.invalidState)
        else (db, Except.error Err.forbidden)

/-- Request statuses a supplier may act on (routers/request.py line 353). -/
def actionAllowed (s : String) : Bool :=
  s == "open" || s == "counter_offered" || s == "supplier_accepted" || s == "supplier_rejected"

/-- Per-row effect of the direct-accept cascade: reject every pending offer
on the request other than the synthesized one. -/
def directRejectUpd (reqId keepId now : Nat) (o : Offer) : Offer :=
  if o.request_id == reqId && o.status == "pending" && o.id != keepId then
    { o with status := "rejected", updated_at := some now }
  else o

/-- Dispatch on the two supplier actions of `supplier_action_on_request`
(the body after all the guards).  A request body with any other action
string falls off the end of the Python function, returning `None` and
failing response validation, surfaced as a 500. -/
def supplierActionCore (db : DB) (s : User) (request : RequestPost)
    (a : SupplierRequestAction) (now : Nat) : DB × Except Err String :=
  if a.action == "accept_request" then
    match request.offer_price with
    | none => (db, Except.error Err.invalidState)
    | some price =>
      let directOffer : Offer :=
        { id := db.nextId, request_id := a.request_id, supplier_id := s.id,
          proposed_price := price,
          message := some "Supplier accepted the customer requested price directly.",
          delivery_date := some (now + 7), status := "accepted",
          created_at := now, updated_at := none }
      let newOrder : Order :=
        { id := db.nextId + 1, request_id := request.id, offer_id := directOffer.id,
          customer_id := request.customer_id, supplier_id := s.id,
          total_price := price, quantity := request.quantity, status := "placed",
          created_at := now, updated_at := none, delivered_at := none }
      let db2 : DB :=
        { db with
          offers := (directOffer :: db.offers).map (directRejectUpd a.request_id directOffer.id now),
          orders := newOrder :: db.orders,
          requests := db.requests.map (fulfillReq request.id now),
          nextId := db.nextId + 2 }
      tryCommit db db2 "Request accepted directly. Order placed."
  else if a.action == "counter_offer" then
    match a.proposed_price with
    | none => (db, Except.error Err.invalidState)
    | some price =>
      let newOffer : Offer :=
        { id := db.nextId, request_id := a.request_id, supplier_id := s.id,
          proposed_price := price, message := none, delivery_date := none,
          status := "pending", created_at := now, updated_at := none }
      let db2 : DB :=
        { db with
          offers := newOffer :: db.offers,
          requests := db.requests.map (fun r =>
            if r.id == request.id then { r with status := "counter_offered", updated_at := some now }
            else r),
          nextId := db.nextId + 1 }
      tryCommit db db2 "Counter-offer sent successfully. Customer needs to respond."
  else (db, Except.error Err.internal)

/-- routers/request.py `supplier_action_on_request`
(POST /requests/\x7brequest_id\x7d/supplier-action).  When the request is in
status "supplier_accepted" the source indexes `request_post.offers[0]`,
which raises `IndexError` (a 500) when the request has no offers. -/
def supplier_action_on_request (db : DB) (a : SupplierRequestAction) (now : Nat) :
    DB × Except Err String :=
  match require_supplier db a.supplier_id with
  | Except.error e => (db, Except.error e)
  | Except.ok s =>
    match db.requests.find? (fun r => r.id == a.request_id) with
    | none => (db, Except.error Err.notFound)
    | some request =>
      if !(actionAllowed request.status) then (db, Except.error Err.invalidState)
      else if a.supplier_id != s.id then (db, Except.error Err.forbidden)
      else
        let existing_pending := db.offers.find? (fun o =>
          o.request_id == a.request_id && o.supplier_id == s.id && o.status == "pending")
        if existing_pending.isSome && a.action == "counter_offer" then
          (db, Except.error Err.conflict)
        else if request.status == "supplier_accepted" then
          match (db.offers.filter (fun o => o.request_id == request.id)).head? with
          | none => (db, Except.error Err.typeError)
          | some o0 =>
            if o0.supplier_id == s.id then (db, Except.error Err.conflict)
            else supplierActionCore db s request a now
        else supplierActionCore db s request a now

/-- Per-row effect of an order status change in `update_order_status`:
only `status` and `updated_at` are written — `delivered_at` never is. -/
def setOrderStatus (db : DB) (oid : Nat) (st : String) (now : Nat) : DB :=
  { db with orders := db.orders.map (fun o =>
      if o.id == oid then { o with status := st, updated_at := some now } else o) }

/-- routers/orders.py `update_order_status` (PATCH /orders/\x7border_id\x7d/status).
The first branch condition reproduces the Python expression
`user.role == "customer" or user.role == "both" and action.action == "cancel"
and action.role == "customer"`, in which `and` binds tighter than `or`:
role "customer" alone takes the cancel branch whatever the action value.
The deliver branch requires `user.role == "both"` — a plain "supplier"
role never matches it. -/
def update_order_status (db : DB) (a : OrderStatusAction) (now : Nat) :
    DB × Except Err String :=
  match db.orders.find? (fun o => o.id == a.order_id) with
  | none => (db, Except.error Err.notFound)
  | some order =>
    match db.users.find? (fun u => u.id == a.user_id) with
    | none => (db, Except.error Err.notFound)
    | some user =>
      if order.status != "placed" then (db, Except.error Err.invalidState)
      else if user.role == "customer" ||
          (user.role == "both" && a.action == "cancel" && a.role == "customer") then
        if order.customer_id != user.id then (db, Except.error Err.forbidden)
        else
          tryCommit db (setOrderStatus db order.id "cancelled" now)
            "Order status updated to cancelled successfully."
      else if user.role == "both" && a.action == "deliver" && a.role == "supplier" then
        if order.supplier_id != user.id then (db, Except.error Err.forbidden)
        else
          tryCommit db (setOrderStatus db order.id "delivered" now)
            "Order status updated to delivered successfully."
      else (db, Except.error Err.invalidState)

/-- Apply a `RequestUpdate` patch to a request row
(`setattr` loop over `model_dump(exclude_unset=True)`). -/
def applyPatch (r : RequestPost) (p : RequestUpdate) : RequestPost :=
  { r with
    title := p.title.getD r.title,
    description := match p.description with | some d => some d | none => r.description,
    category := p.category.getD r.category,
    offer_price := match p.offer_price with | some v => some v | none => r.offer_price,
    quantity := p.quantity.getD r.quantity,
    status := p.status.getD r.status }

/-- routers/request.py `update_request_post` (PUT /requests/\x7brequest_id\x7d).
The first statement is `require_customer_of_request`, which always raises
`TypeError` (see that definition); the status guard, the patch loop and the
commit below are therefore dead code in the source, embedded here as the
code reads. -/
def update_request_post (db : DB) (request_id : Nat) (p : RequestUpdate) (now : Nat) :
    DB × Except Err RequestPost :=
  match require_customer_of_request db request_id with
  | Except.error e => (db, Except.error e)
  | Except.ok request_post =>
    if request_post.status != "open" then (db, Except.error Err.invalidState)
    else
      let db1 : DB :=
        { db with requests := db.requests.map (fun r =>
            if r.id == request_post.id then { applyPatch r p with updated_at := some now }
            else r) }
      tryCommit db db1 { applyPatch request_post p with updated_at := some now }

/-! Basic lemmas about the session primitives. -/

theorem tryCommit_fst_disc {α : Type} (pre cur : DB) (a : α) :
    (tryCommit pre cur a).1 = pre ∨ commitOk (tryCommit pre cur a).1 = true := by
  unfold tryCommit
  split
  case isTrue h => exact Or.inr h
  case isFalse _ => exact Or.inl rfl

/-- Keyed uniqueness is untouched by a row transformation that preserves
the key column. -/
theorem uniqueBy_map_of_key_eq (f : Order → Nat) (g : Order → Order)
    (hg : ∀ o, f (g o) = f o) (l : List Order) :
    uniqueBy f (l.map g) = uniqueBy f l := by
  induction l with
  | nil => rfl
  | cons x xs ih =>
      simp only [List.map_cons, uniqueBy, List.any_map, hg, ih]
      have h2 : ((fun o2 => f o2 == f x) ∘ g) = (fun o2 => f o2 == f x) := by
        funext o2; simp [Function.comp, hg]
      rw [h2]

/-- An order status change preserves the commit constraints. -/
theorem commitOk_setOrderStatus (db : DB) (oid : Nat) (st : String) (now : Nat) :
    commitOk (setOrderStatus db oid st now) = commitOk db := by
  unfold commitOk setOrderStatus
  rw [uniqueBy_map_of_key_eq, uniqueBy_map_of_key_eq]
  · intro o; dsimp only; split <;> rfl
  · intro o; dsimp only; split <;> rfl

theorem zipWith_self_map {α β : Type} (h : α → β) (l : List α) :
    List.zipWith Prod.mk l (l.map h) = l.map (fun a => (a, h a)) := by
  induction l with
  | nil => rfl
  | cons x xs ih => simp [ih]

/-- Pairing a list with its image under a row transformation. -/
theorem zip_self_map {α β : Type} (h : α → β) (l : List α) :
    l.zip (l.map h) = l.map (fun a => (a, h a)) := by
  simpa [List.zip] using zipWith_self_map h l

/-- `find?` by key commutes with a key-preserving row transformation of the
offers table. -/
theorem find_offer_map (f : Offer → Offer) (hf : ∀ o, (f o).id = o.id) (k : Nat)
    (l : List Offer) :
    (l.map f).find? (fun o => o.id == k) = (l.find? (fun o => o.id == k)).map f := by
  induction l with
  | nil => rfl
  | cons x xs ih =>
      by_cases h : (x.id == k) = true
      · rw [List.map_cons, List.find?_cons_of_pos, List.find?_cons_of_pos]
        · rfl
        · exact h
        · rw [hf]; exact h
      · rw [List.map_cons, List.find?_cons_of_neg, List.find?_cons_of_neg, ih]
        · simpa using h
        · rw [hf]; simpa using h

/-- `find?` by key commutes with a key-preserving row transformation of the
requests table. -/
theorem find_request_map (f : RequestPost → RequestPost) (hf : ∀ r, (f r).id = r.id) (k : Nat)
    (l : List RequestPost) :
    (l.map f).find? (fun r => r.id == k) = (l.find? (fun r => r.id == k)).map f := by
  induction l with
  | nil => rfl
  | cons x xs ih =>
      by_cases h : (x.id == k) = true
      · rw [List.map_cons, List.find?_cons_of_pos, List.find?_cons_of_pos]
        · rfl
        · exact h
        · rw [hf]; exact h
      · rw [List.map_cons, List.find?_cons_of_neg, List.find?_cons_of_neg, ih]
        · simpa using h
        · rw [hf]; simpa using h

/-! Concrete fixtures for the claims that evaluate the code at one input. -/

/-- Fixture for the supplier-cancel claim: customer 1 owns open request 5;
supplier 2 has the pending offer 7 on it. -/
def dbC7 : DB :=
  { users := [{ id := 1, role := "customer" }, { id := 2, role := "supplier" }],
    products := [{ id := 3, supplier_id := 2, category := "bakery" }],
    requests := [{ id := 5, customer_id := 1, title := "cake", description := none,
                   category := "bakery", offer_price := some 50, quantity := 2,
                   status := "open", created_at := 0, updated_at := none }],
    offers := [{ id := 7, request_id := 5, supplier_id := 2, proposed_price := 45,
                 message := none, delivery_date := none, status := "pending",
                 created_at := 1, updated_at := none }],
    orders := [],
    nextId := 100 }

/-- C7: the claim reads `SupplierCancelOffer` as Forbidden only when the
offer does not belong to the calling supplier.  In the source the acting
user of `respond_to_offer` is looked up by `request.customer_id` (line
208), so the supplier branch compares `offer.supplier_id` against the
customer of the request: the owning supplier of a pending offer is
refused with 403 instead of getting `cancelled_by_supplier`, contradicting
the handler docstring ("Allows a supplier to cancel their own offer"). -/
theorem supplier_cancel_compares_against_customer :
    respond_to_offer dbC7 { offer_id := 7, action := "cancel_by_supplier", role := "supplier" } 9
      = (dbC7, Except.error Err.forbidden)
    ∧ (dbC7.offers.find? (fun o => o.id == 7)).map Offer.supplier_id = some 2
    ∧ (dbC7.offers.find? (fun o => o.id == 7)).map Offer.status = some "pending" := by
  decide

/-- Fixture for the deliver claim, plain supplier role: supplier 2 owns
placed order 10. -/
def dbC6 : DB :=
  { users := [{ id := 1, role := "customer" }, { id := 2, role := "supplier" }],
    products := [],
    requests := [],
    offers := [],
    orders := [{ id := 10, request_id := 5, offer_id := 7, customer_id := 1,
                 supplier_id := 2, total_price := 45, quantity := 2, status := "placed",
                 created_at := 2, updated_at := none, delivered_at := none }],
    nextId := 100 }

/-- Fixture for the deliver claim, role "both": user 3 is the supplier of
placed order 10. -/
def dbC6b : DB :=
  { users := [{ id := 1, role := "customer" }, { id := 3, role := "both" }],
    products := [],
    requests := [],
    offers := [],
    orders := [{ id := 10, request_id := 5, offer_id := 7, customer_id := 1,
                 supplier_id := 3, total_price := 45, quantity := 2, status := "placed",
                 created_at := 2, updated_at := none, delivered_at := none }],
    nextId := 100 }

/-- C6: the claim (and the spec) say `deliver` succeeds exactly for a
caller of role supplier owning the order, setting `delivered_at`.  In the
source the deliver branch demands `user.role == "both"`, so the owning
plain-role supplier is refused with 400; and even on the role-"both" path
only `status` and `updated_at` are written — `delivered_at` stays NULL —
contradicting the handler docstring ("a supplier to mark an order as
delivered"). -/
theorem deliver_rejects_supplier_role_and_skips_delivered_at :
    update_order_status dbC6 { order_id := 10, user_id := 2, action := "deliver", role := "supplier" } 9
      = (dbC6, Except.error Err.invalidState)
    ∧ (update_order_status dbC6b { order_id := 10, user_id := 3, action := "deliver", role := "supplier" } 9).2
      = Except.ok "Order status updated to delivered successfully."
    ∧ (∀ o ∈ (update_order_status dbC6b { order_id := 10, user_id := 3, action := "deliver", role := "supplier" } 9).1.orders,
        o.status = "delivered" ∧ o.delivered_at = none) := by
  decide

/-- Fixture for the update-request claim: customer 1 owns open request 5. -/
def dbC8 : DB :=
  { users := [{ id := 1, role := "customer" }],
    products := [],
    requests := [{ id := 5, customer_id := 1, title := "cake", description := none,
                   category := "bakery", offer_price := some 50, quantity := 2,
                   status := "open", created_at := 0, updated_at := none }],
    offers := [],
    orders := [],
    nextId := 100 }

/-- C8: the claim says the owning customer can patch an open request.  In
the source every call to `update_request_post` dies inside
`require_customer_of_request`, whose first statement calls
`get_user(role="customer", db=db)` although `get_user` has no `role`
parameter — Python raises `TypeError` (a 500) before any check runs, so
even the owner patching an open request never succeeds and the request is
left untouched, contradicting the handler docstring ("Only the customer
who created it can update, and only if the status is open"). -/
theorem update_request_always_type_errors :
    update_request_post dbC8 5
      { title := some "bigger cake", description := none, category := none,
        offer_price := none, quantity := none, status := none } 9
      = (dbC8, Except.error Err.typeError)
    ∧ (dbC8.requests.find? (fun r => r.id == 5)).map RequestPost.customer_id = some 1
    ∧ (dbC8.requests.find? (fun r => r.id == 5)).map RequestPost.status = some "open" := by
  decide

/-- Fixture for the rollback claim: request 5 already fulfilled through
offer 7 (order 20 references it); offers 8 and 9 are still pending — a
state reachable by calling POST /orders/confirm-offer on offer 7 directly,
which cascades nothing. -/
def dbC2 : DB :=
  { users := [{ id := 1, role := "customer" }, { id := 2, role := "supplier" },
              { id := 3, role := "supplier" }, { id := 4, role := "supplier" }],
    products := [],
    requests := [{ id := 5, customer_id := 1, title := "cake", description := none,
                   category := "bakery", offer_price := some 50, quantity := 2,
                   status := "fulfilled", created_at := 0, updated_at := none }],
    offers := [{ id := 7, request_id := 5, supplier_id := 2, proposed_price := 45,
                 message := none, delivery_date := none, status := "accepted",
                 created_at := 1, updated_at := none },
               { id := 8, request_id := 5, supplier_id := 3, proposed_price := 40,
                 message := none, delivery_date := none, status := "pending",
                 created_at := 1, updated_at := none },
               { id := 9, request_id := 5, supplier_id := 4, proposed_price := 42,
                 message := none, delivery_date := none, status := "pending",
                 created_at := 1, updated_at := none }],
    orders := [{ id := 20, request_id := 5, offer_id := 7, customer_id := 1,
                 supplier_id := 2, total_price := 45, quantity := 2, status := "placed",
                 created_at := 2, updated_at := none, delivered_at := none }],
    nextId := 100 }

/-- C2: the claim says a failed order creation rolls the whole acceptance
back.  The source commits the accepted-offer / fulfilled-request / cascade
writes (offer.py line 243) before calling
`confirm_offer_and_create_order`; when the order insert then fails (here:
the unique constraint on `orders.request_id`, since order 20 already
references request 5), the rollback in the exception handler can only
undo the uncommitted order — the committed cascade survives.  After the
failed accept of offer 8, offer 8 is `accepted` (was `pending`), sibling 9
is `rejected` (was `pending`), and no order for offer 8 exists — the exact
opposite of "unchanged from their pre-call values", and contradicting the
source comment "Rollback everything if order creation fails". -/
theorem accept_rollback_is_incomplete :
    (respond_to_offer dbC2 { offer_id := 8, action := "accept", role := "customer" } 9).2
      = Except.error Err.internal
    ∧ (dbC2.offers.find? (fun o => o.id == 8)).map Offer.status = some "pending"
    ∧ (((respond_to_offer dbC2 { offer_id := 8, action := "accept", role := "customer" } 9).1.offers.find?
        (fun o => o.id == 8)).map Offer.status = some "accepted")
    ∧ (((respond_to_offer dbC2 { offer_id := 8, action := "accept", role := "customer" } 9).1.offers.find?
        (fun o => o.id == 9)).map Offer.status = some "rejected")
    ∧ ((respond_to_offer dbC2 { offer_id := 8, action := "accept", role := "customer" } 9).1.orders.filter
        (fun od => od.offer_id == 8)).length = 0 := by
  decide

/-- Fixture refuting the unconditional Conflict reading of submit-offer:
supplier 2 already holds pending offer 7 on open request 5, but has no
product in the request category (reachable: the counter-offer path of
`supplier_action_on_request` creates pending offers without any category
check, and products can be deleted). -/
def dbC5 : DB :=
  { users := [{ id := 1, role := "customer" }, { id := 2, role := "supplier" }],
    products := [],
    requests := [{ id := 5, customer_id := 1, title := "cake", description := none,
                   category := "bakery", offer_price := some 50, quantity := 2,
                   status := "open", created_at := 0, updated_at := none }],
    offers := [{ id := 7, request_id := 5, supplier_id := 2, proposed_price := 45,
                 message := none, delivery_date := none, status := "pending",
                 created_at := 1, updated_at := none }],
    orders := [],
    nextId := 100 }

/-- C5 counterexample: a supplier who already holds a pending offer on the
request is answered 403 Forbidden (failed category check), not 409
Conflict, so "a further create_offer on that request fails with Conflict"
does not hold unconditionally. -/
theorem submit_offer_conflict_counterexample :
    create_offer dbC5 { request_id := 5, supplier_id := 2, proposed_price := 40,
                        message := none, delivery_date := none } 9
      = (dbC5, Except.error Err.forbidden)
    ∧ (dbC5.offers.find? (fun o =>
        o.request_id == 5 && o.supplier_id == 2 && o.status == "pending")).isSome = true
    ∧ Err.forbidden ≠ Err.conflict := by
  decide

/-- C5 amended: on a request that exists, a non-open status always yields
InvalidState with no offer row created; and when the request is open, the
supplier has role "supplier" and a product in the request category, an
existing pending offer by the same supplier yields Conflict with no row
created. -/
theorem submit_offer_invalid_state_and_conflict (db : DB) (inp : OfferCreate) (now : Nat)
    (req : RequestPost)
    (hreq : db.requests.find? (fun r => r.id == inp.request_id) = some req) :
    (req.status ≠ "open" → create_offer db inp now = (db, Except.error Err.invalidState))
    ∧ (∀ sup : User,
        req.status = "open" →
        db.users.find? (fun u => u.id == inp.supplier_id) = some sup →
        sup.role = "supplier" →
        ((db.products.filter (fun p => p.supplier_id == sup.id)).any
          (fun p => p.category == req.category)) = true →
        (db.offers.find? (fun o =>
          o.request_id == inp.request_id && o.supplier_id == inp.supplier_id &&
          o.status == "pending")).isSome = true →
        create_offer db inp now = (db, Except.error Err.conflict)) := by
  constructor
  · intro hst
    simp [create_offer, hreq, hst]
  · intro sup hopen hu hrole hcat hpend
    obtain ⟨o, ho⟩ := Option.isSome_iff_exists.mp hpend
    simp [create_offer, hreq, hopen, hu, hrole, hcat, ho]

/-- Fixture for the invalid-state half of the amended submit-offer claim. -/
def dbC5a : DB :=
  { users := [{ id := 1, role := "customer" }, { id := 2, role := "supplier" }],
    products := [{ id := 3, supplier_id := 2, category := "bakery" }],
    requests := [{ id := 5, customer_id := 1, title := "cake", description := none,
                   category := "bakery", offer_price := some 50, quantity := 2,
                   status := "fulfilled", created_at := 0, updated_at := none }],
    offers := [],
    orders := [],
    nextId := 100 }

/-- Fixture for the conflict half of the amended submit-offer claim. -/
def dbC5b : DB :=
  { users := [{ id := 1, role := "customer" }, { id := 2, role := "supplier" }],
    products := [{ id := 3, supplier_id := 2, category := "bakery" }],
    requests := [{ id := 5, customer_id := 1, title := "cake", description := none,
                   category := "bakery", offer_price := some 50, quantity := 2,
                   status := "open", created_at := 0, updated_at := none }],
    offers := [{ id := 7, request_id := 5, supplier_id := 2, proposed_price := 45,
                 message := none, delivery_date := none, status := "pending",
                 created_at := 1, updated_at := none }],
    orders := [],
    nextId := 100 }

theorem submit_offer_invalid_state_and_conflict_witness :
    create_offer dbC5a { request_id := 5, supplier_id := 2, proposed_price := 40,
                         message := none, delivery_date := none } 9
      = (dbC5a, Except.error Err.invalidState)
    ∧ create_offer dbC5b { request_id := 5, supplier_id := 2, proposed_price := 40,
                           message := none, delivery_date := none } 9
      = (dbC5b, Except.error Err.conflict) :=
  ⟨(submit_offer_invalid_state_and_conflict dbC5a
      { request_id := 5, supplier_id := 2, proposed_price := 40,
        message := none, delivery_date := none } 9
      { id := 5, customer_id := 1, title := "cake", description := none,
        category := "bakery", offer_price := some 50, quantity := 2,
        status := "fulfilled", created_at := 0, updated_at := none }
      (by decide)).1 (by decide),
   (submit_offer_invalid_state_and_conflict dbC5b
      { request_id := 5, supplier_id := 2, proposed_price := 40,
        message := none, delivery_date := none } 9
      { id := 5, customer_id := 1, title := "cake", description := none,
        category := "bakery", offer_price := some 50, quantity := 2,
        status := "open", created_at := 0, updated_at := none }
      (by decide)).2
     { id := 2, role := "supplier" }
     (by decide) (by decide) (by decide) (by decide) (by decide)⟩

/-- C9: a dual-role "both" user is refused by `create_offer` (its guard is
string equality with "supplier", offer.py line 37), although the listing
endpoint `get_offers_by_supplier` (line 142) and `require_supplier`
(request.py line 129) both treat "both" as a supplier. -/
theorem both_role_cannot_submit_offer (db : DB) (inp : OfferCreate) (now : Nat)
    (u : User) (req : RequestPost)
    (hreq : db.requests.find? (fun r => r.id == inp.request_id) = some req)
    (hopen : req.status = "open")
    (hu : db.users.find? (fun x => x.id == inp.supplier_id) = some u)
    (hrole : u.role = "both") :
    create_offer db inp now = (db, Except.error Err.forbidden)
    ∧ require_supplier db inp.supplier_id = Except.ok u
    ∧ get_offers_by_supplier db inp.supplier_id
        = Except.ok (db.offers.filter (fun o =>
            o.supplier_id == inp.supplier_id && o.status != "accepted")) := by
  refine ⟨?_, ?_, ?_⟩
  · simp [create_offer, hreq, hopen, hu, hrole]
  · simp [require_supplier, get_user, hu, hrole]
  · simp [get_offers_by_supplier, hu, hrole]

/-- Fixture for the dual-role claim: user 2 has role "both". -/
def dbC9 : DB :=
  { users := [{ id := 1, role := "customer" }, { id := 2, role := "both" }],
    products := [{ id := 3, supplier_id := 2, category := "bakery" }],
    requests := [{ id := 5, customer_id := 1, title := "cake", description := none,
                   category := "bakery", offer_price := some 50, quantity := 2,
                   status := "open", created_at := 0, updated_at := none }],
    offers := [],
    orders := [],
    nextId := 100 }

theorem both_role_cannot_submit_offer_witness :
    create_offer dbC9 { request_id := 5, supplier_id := 2, proposed_price := 40,
                        message := none, delivery_date := none } 9
      = (dbC9, Except.error Err.forbidden)
    ∧ require_supplier dbC9 2 = Except.ok { id := 2, role := "both" }
    ∧ get_offers_by_supplier dbC9 2
        = Except.ok (dbC9.offers.filter (fun o =>
            o.supplier_id == 2 && o.status != "accepted")) :=
  both_role_cannot_submit_offer dbC9
    { request_id := 5, supplier_id := 2, proposed_price := 40,
      message := none, delivery_date := none } 9
    { id := 2, role := "both" }
    { id := 5, customer_id := 1, title := "cake", description := none,
      category := "bakery", offer_price := some 50, quantity := 2,
      status := "open", created_at := 0, updated_at := none }
    (by decide) (by decide) (by decide) (by decide)

/-- C10: because `and` binds tighter than `or` in the source condition
(orders.py line 192), a caller of role "customer" owning a placed order
takes the cancel branch whatever the `action` field says — including
"deliver" — and the order ends up "cancelled". -/
theorem customer_role_always_cancels (db : DB) (a : OrderStatusAction) (now : Nat)
    (ord : Order) (u : User)
    (hord : db.orders.find? (fun o => o.id == a.order_id) = some ord)
    (hu : db.users.find? (fun x => x.id == a.user_id) = some u)
    (hrole : u.role = "customer")
    (hplaced : ord.status = "placed")
    (hown : ord.customer_id = u.id)
    (hinv : commitOk db = true) :
    (update_order_status db a now).2
      = Except.ok "Order status updated to cancelled successfully."
    ∧ ∀ o ∈ (update_order_status db a now).1.orders,
        o.id = a.order_id → o.status = "cancelled" := by
  have hid : ord.id = a.order_id := by
    have := List.find?_some hord
    simpa using this
  have hcommit : commitOk (setOrderStatus db ord.id "cancelled" now) = true := by
    rw [commitOk_setOrderStatus]; exact hinv
  have hres : update_order_status db a now
      = (setOrderStatus db ord.id "cancelled" now,
         Except.ok "Order status updated to cancelled successfully.") := by
    simp [update_order_status, hord, hu, hrole, hplaced, hown, tryCommit, hcommit]
  rw [hres]
  refine ⟨rfl, ?_⟩
  intro o ho hoid
  simp only [setOrderStatus, List.mem_map] at ho
  obtain ⟨x, hx, hxo⟩ := ho
  by_cases hc : (x.id == ord.id) = true
  · rw [if_pos hc] at hxo
    rw [← hxo]
  · rw [if_neg hc] at hxo
    exfalso
    apply hc
    rw [hxo, hoid, hid]
    exact beq_self_eq_true _

/-- Fixture for the customer-cancel-precedence claim. -/
def dbC10 : DB :=
  { users := [{ id := 1, role := "customer" }, { id := 2, role := "supplier" }],
    products := [],
    requests := [],
    offers := [],
    orders := [{ id := 10, request_id := 5, offer_id := 7, customer_id := 1,
                 supplier_id := 2, total_price := 45, quantity := 2, status := "placed",
                 created_at := 2, updated_at := none, delivered_at := none }],
    nextId := 100 }

theorem customer_role_always_cancels_witness :
    (update_order_status dbC10
        { order_id := 10, user_id := 1, action := "deliver", role := "customer" } 9).2
      = Except.ok "Order status updated to cancelled successfully."
    ∧ ∀ o ∈ (update_order_status dbC10
        { order_id := 10, user_id := 1, action := "deliver", role := "customer" } 9).1.orders,
        o.id = 10 → o.status = "cancelled" :=
  customer_role_always_cancels dbC10
    { order_id := 10, user_id := 1, action := "deliver", role := "customer" } 9
    { id := 10, request_id := 5, offer_id := 7, customer_id := 1,
      supplier_id := 2, total_price := 45, quantity := 2, status := "placed",
      created_at := 2, updated_at := none, delivered_at := none }
    { id := 1, role := "customer" }
    (by decide) (by decide) (by decide) (by decide) (by decide) (by decide)

/-- The unique constraint in counting form: a keyed-unique orders table
holds at most one row per request id. -/
theorem uniqueBy_filter_len_le_one (l : List Order)
    (h : uniqueBy (fun o => o.request_id) l = true) (rid : Nat) :
    (l.filter (fun o => o.request_id == rid)).length ≤ 1 := by
  induction l with
  | nil => simp
  | cons x xs ih =>
      simp only [uniqueBy, Bool.and_eq_true, Bool.not_eq_true'] at h
      obtain ⟨hx, hrest⟩ := h
      by_cases hc : (x.request_id == rid) = true
      · have hnil : xs.filter (fun o => o.request_id == rid) = [] := by
          rw [List.filter_eq_nil_iff]
          intro o ho hpo
          have h1 : o.request_id = rid := by simpa using hpo
          have h2 : x.request_id = rid := by simpa using hc
          have : xs.any (fun o2 => o2.request_id == x.request_id) = true := by
            rw [List.any_eq_true]
            exact ⟨o, ho, by simp [h1, h2]⟩
          rw [hx] at this
          exact Bool.false_ne_true this
        simp [List.filter_cons, hc, hnil]
      · simp only [List.filter_cons, hc, if_false]
        exact ih hrest

/-! Commit discipline: every handler leaves behind either the database it
was given or a database that passed the commit constraints. -/

theorem create_offer_fst_disc (db : DB) (inp : OfferCreate) (now : Nat) :
    (create_offer db inp now).1 = db ∨ commitOk (create_offer db inp now).1 = true := by
  unfold create_offer
  dsimp only
  repeat' split
  all_goals try dsimp only
  all_goals first
    | (left; rfl)
    | apply tryCommit_fst_disc

theorem confirm_fst_disc (db : DB) (od : OrderCreateFromOffer) (now : Nat) :
    (confirm_offer_and_create_order db od now).1 = db
    ∨ commitOk (confirm_offer_and_create_order db od now).1 = true := by
  unfold confirm_offer_and_create_order
  dsimp only
  repeat' split
  all_goals try dsimp only
  all_goals first
    | (left; rfl)
    | apply tryCommit_fst_disc

/-- A call into confirm from a state that already passed commit lands in a
state that passes commit. -/
theorem confirm_arm_commit (db1 : DB) (od : OrderCreateFromOffer) (now : Nat)
    (hc : commitOk db1 = true) :
    commitOk (confirm_offer_and_create_order db1 od now).1 = true := by
  rcases confirm_fst_disc db1 od now with h | h
  · rw [h]; exact hc
  · exact h

theorem respond_fst_disc (db : DB) (a : OfferAction) (now : Nat) :
    (respond_to_offer db a now).1 = db ∨ commitOk (respond_to_offer db a now).1 = true := by
  unfold respond_to_offer
  dsimp only
  repeat' split
  all_goals try dsimp only
  all_goals first
    | (left; rfl)
    | apply tryCommit_fst_disc
    | exact Or.inr (confirm_arm_commit _ _ _ (by assumption))

theorem supplier_action_fst_disc (db : DB) (a : SupplierRequestAction) (now : Nat) :
    (supplier_action_on_request db a now).1 = db
    ∨ commitOk (supplier_action_on_request db a now).1 = true := by
  unfold supplier_action_on_request supplierActionCore
  dsimp only
  repeat' split
  all_goals try dsimp only
  all_goals first
    | (left; rfl)
    | apply tryCommit_fst_disc

theorem update_order_status_fst_disc (db : DB) (a : OrderStatusAction) (now : Nat) :
    (update_order_status db a now).1 = db
    ∨ commitOk (update_order_status db a now).1 = true := by
  unfold update_order_status
  try dsimp only
  repeat' split
  all_goals try dsimp only
  all_goals first
    | (left; rfl)
    | apply tryCommit_fst_disc

/-- C3: at most one order per request is an invariant: starting from a
database whose orders table satisfies the unique constraint on
`request_id`, every operation of the accept/direct-accept/confirm flow
(and the offer and order mutators besides) leaves a table with at most one
order per request id, because every path either leaves the orders
untouched or passes the commit constraint check. -/
theorem one_order_per_request_invariant (db : DB) (now : Nat)
    (hinv : uniqueBy (fun o => o.request_id) db.orders = true) :
    (∀ a : OfferAction, ∀ rid : Nat,
      ((respond_to_offer db a now).1.orders.filter (fun o => o.request_id == rid)).length ≤ 1)
    ∧ (∀ sa : SupplierRequestAction, ∀ rid : Nat,
      ((supplier_action_on_request db sa now).1.orders.filter (fun o => o.request_id == rid)).length ≤ 1)
    ∧ (∀ od : OrderCreateFromOffer, ∀ rid : Nat,
      ((confirm_offer_and_create_order db od now).1.orders.filter (fun o => o.request_id == rid)).length ≤ 1)
    ∧ (∀ oc : OfferCreate, ∀ rid : Nat,
      ((create_offer db oc now).1.orders.filter (fun o => o.request_id == rid)).length ≤ 1)
    ∧ (∀ os : OrderStatusAction, ∀ rid : Nat,
      ((update_order_status db os now).1.orders.filter (fun o => o.request_id == rid)).length ≤ 1) := by
  have key : ∀ db' : DB, (db' = db ∨ commitOk db' = true) → ∀ rid : Nat,
      ((db'.orders.filter (fun o => o.request_id == rid)).length ≤ 1) := by
    rintro db' (rfl | h) rid
    · exact uniqueBy_filter_len_le_one _ hinv rid
    · unfold commitOk at h
      rw [Bool.and_eq_true] at h
      exact uniqueBy_filter_len_le_one _ h.1 rid
  refine ⟨?_, ?_, ?_, ?_, ?_⟩
  · intro a rid; exact key _ (respond_fst_disc db a now) rid
  · intro sa rid; exact key _ (supplier_action_fst_disc db sa now) rid
  · intro od rid; exact key _ (confirm_fst_disc db od now) rid
  · intro oc rid; exact key _ (create_offer_fst_disc db oc now) rid
  · intro os rid; exact key _ (update_order_status_fst_disc db os now) rid

/-- Fixture for the invariant claim: two pending offers on request 5, no
orders yet; accepting offer 8 creates the one order for the request. -/
def dbC3 : DB :=
  { users := [{ id := 1, role := "customer" }, { id := 2, role := "supplier" },
              { id := 3, role := "supplier" }],
    products := [],
    requests := [{ id := 5, customer_id := 1, title := "cake", description := none,
                   category := "bakery", offer_price := some 50, quantity := 2,
                   status := "open", created_at := 0, updated_at := none }],
    offers := [{ id := 7, request_id := 5, supplier_id := 2, proposed_price := 45,
                 message := none, delivery_date := none, status := "pending",
                 created_at := 1, updated_at := none },
               { id := 8, request_id := 5, supplier_id := 3, proposed_price := 40,
                 message := none, delivery_date := none, status := "pending",
                 created_at := 1, updated_at := none }],
    orders := [],
    nextId := 100 }

theorem one_order_per_request_invariant_witness :
    ((respond_to_offer dbC3 { offer_id := 8, action := "accept", role := "customer" } 9).1.orders.filter
      (fun o => o.request_id == 5)).length ≤ 1 :=
  (one_order_per_request_invariant dbC3 9 (by decide)).1
    { offer_id := 8, action := "accept", role := "customer" } 5

/-- A successful commit hands back the working state. -/
theorem tryCommit_ok_fst {α : Type} (pre cur : DB) (x msg : α)
    (h : (tryCommit pre cur x).2 = Except.ok msg) : (tryCommit pre cur x).1 = cur := by
  unfold tryCommit at h ⊢
  split at h
  case isTrue hc => simp [hc]
  case isFalse hc => simp at h

/-- A user accepted by `require_supplier` is the row looked up by the given
id, with a supplier-capable role. -/
theorem require_supplier_ok_id (db : DB) (uid : Nat) (s : User)
    (h : require_supplier db uid = Except.ok s) : s.id = uid := by
  unfold require_supplier get_user at h
  cases hf : db.users.find? (fun u => u.id == uid) with
  | none => rw [hf] at h; simp at h
  | some u =>
      rw [hf] at h
      simp only [] at h
      split at h
      · simp at h
      · have hu : u = s := by simpa using h
        have := List.find?_some hf
        rw [← hu]
        simpa using this

/-- Rows fulfilled by key carry status "fulfilled" at that key. -/
theorem mem_map_fulfill_status (rid now : Nat) (l : List RequestPost) :
    ∀ r2 ∈ l.map (fulfillReq rid now), r2.id = rid → r2.status = "fulfilled" := by
  intro r2 h hid
  rw [List.mem_map] at h
  obtain ⟨y, hy, hyr⟩ := h
  unfold fulfillReq at hyr
  by_cases hc : (y.id == rid) = true
  · rw [if_pos hc] at hyr; rw [← hyr]
  · rw [if_neg hc] at hyr
    exfalso
    apply hc
    rw [hyr, hid]
    exact beq_self_eq_true _

/-- The database produced by a successful supplier direct accept: the
synthesized accepted offer is inserted, every other pending offer on the
request is rejected, the one order is placed at the customer target price,
and the request is fulfilled. -/
def directAcceptDB (db : DB) (s : User) (req : RequestPost) (a : SupplierRequestAction)
    (now : Nat) (price : Rat) : DB :=
  { db with
    offers := ({ id := db.nextId, request_id := a.request_id, supplier_id := s.id,
                 proposed_price := price,
                 message := some "Supplier accepted the customer requested price directly.",
                 delivery_date := some (now + 7), status := "accepted",
                 created_at := now, updated_at := none } :: db.offers).map
              (directRejectUpd a.request_id db.nextId now),
    orders := { id := db.nextId + 1, request_id := req.id, offer_id := db.nextId,
                customer_id := req.customer_id, supplier_id := s.id,
                total_price := price, quantity := req.quantity, status := "placed",
                created_at := now, updated_at := none, delivered_at := none } :: db.orders,
    requests := db.requests.map (fulfillReq req.id now),
    nextId := db.nextId + 2 }

/-- A successful accept through the core lands exactly in `directAcceptDB`
at the customer target price. -/
theorem supplierActionCore_accept_shape (db : DB) (s : User) (req : RequestPost)
    (a : SupplierRequestAction) (now : Nat) (msg : String)
    (hact : a.action = "accept_request")
    (hok : (supplierActionCore db s req a now).2 = Except.ok msg) :
    ∃ price : Rat, req.offer_price = some price ∧
      (supplierActionCore db s req a now).1 = directAcceptDB db s req a now price := by
  have ht : ("accept_request" == "accept_request") = true := by decide
  unfold supplierActionCore at hok ⊢
  rw [hact] at hok ⊢
  rw [ht] at hok ⊢
  simp only [if_true] at hok ⊢
  cases hp : req.offer_price with
  | none => rw [hp] at hok; simp at hok
  | some price =>
      rw [hp] at hok
      dsimp only at hok ⊢
      refine ⟨price, rfl, ?_⟩
      rw [tryCommit_ok_fst _ _ _ _ hok]
      unfold directAcceptDB
      rfl

/-- C4: whenever the supplier direct-accept succeeds, the new state holds
the synthesized accepted offer at the request target price at the head of
the offers table, a placed order at that price and the request quantity,
the request fulfilled, and every other pending offer on the request
rejected.  The freshness hypothesis mirrors uuid4 uniqueness of the
synthesized offer id. -/
theorem direct_accept_postconditions (db : DB) (a : SupplierRequestAction) (now : Nat)
    (req : RequestPost) (msg : String)
    (hreq : db.requests.find? (fun r => r.id == a.request_id) = some req)
    (hact : a.action = "accept_request")
    (hfresh : ∀ o ∈ db.offers, o.id ≠ db.nextId)
    (hok : (supplier_action_on_request db a now).2 = Except.ok msg) :
    ∃ price : Rat, req.offer_price = some price ∧
    ∃ dOff : Offer, ∃ nOrd : Order,
      (supplier_action_on_request db a now).1.offers.head? = some dOff
      ∧ dOff.status = "accepted" ∧ dOff.proposed_price = price
      ∧ dOff.request_id = a.request_id
      ∧ (supplier_action_on_request db a now).1.orders.head? = some nOrd
      ∧ nOrd.total_price = price ∧ nOrd.quantity = req.quantity
      ∧ nOrd.status = "placed" ∧ nOrd.offer_id = dOff.id ∧ nOrd.request_id = req.id
      ∧ (∀ r2 ∈ (supplier_action_on_request db a now).1.requests,
          r2.id = req.id → r2.status = "fulfilled")
      ∧ (supplier_action_on_request db a now).1.offers.length = db.offers.length + 1
      ∧ (∀ pr ∈ db.offers.zip (supplier_action_on_request db a now).1.offers.tail,
          pr.1.request_id = a.request_id → pr.1.status = "pending" →
          pr.2.id = pr.1.id ∧ pr.2.status = "rejected") := by
  obtain ⟨s, hrs⟩ : ∃ s, require_supplier db a.supplier_id = Except.ok s := by
    cases h : require_supplier db a.supplier_id with
    | ok s => exact ⟨s, rfl⟩
    | error e =>
        exfalso
        unfold supplier_action_on_request at hok
        rw [h] at hok
        simp at hok
  have hsid : s.id = a.supplier_id := require_supplier_ok_id db a.supplier_id s hrs
  have haa : actionAllowed req.status = true := by
    cases h : actionAllowed req.status
    · exfalso
      unfold supplier_action_on_request at hok
      rw [hrs, hreq] at hok
      simp [h] at hok
    · rfl
  have hmm : (a.supplier_id != s.id) = false := by
    rw [hsid]
    exact bne_self_eq_false _
  have hcf : (a.action == "counter_offer") = false := by
    rw [hact]; decide
  suffices hred : supplier_action_on_request db a now = supplierActionCore db s req a now by
    rw [hred] at hok ⊢
    obtain ⟨price, hp, hdb⟩ := supplierActionCore_accept_shape db s req a now msg hact hok
    rw [hdb]
    unfold directAcceptDB
    set dOff : Offer :=
      { id := db.nextId, request_id := a.request_id, supplier_id := s.id,
        proposed_price := price,
        message := some "Supplier accepted the customer requested price directly.",
        delivery_date := some (now + 7), status := "accepted",
        created_at := now, updated_at := none } with hdOff
    set nOrd : Order :=
      { id := db.nextId + 1, request_id := req.id, offer_id := db.nextId,
        customer_id := req.customer_id, supplier_id := s.id,
        total_price := price, quantity := req.quantity, status := "placed",
        created_at := now, updated_at := none, delivered_at := none } with hnOrd
    have hrej : directRejectUpd a.request_id db.nextId now dOff = dOff := by
      rw [hdOff]
      unfold directRejectUpd
      have : ("accepted" == "pending") = false := by decide
      simp [this]
    refine ⟨price, hp, dOff, nOrd, ?_, rfl, rfl, rfl, rfl, rfl, rfl, rfl, rfl, rfl, ?_, ?_, ?_⟩
    · simp only [List.map_cons, List.head?_cons, hrej]
    · exact mem_map_fulfill_status req.id now db.requests
    · simp [List.length_map]
    · intro pr hpr h1 h2
      simp only [List.map_cons, List.tail_cons] at hpr
      rw [zip_self_map, List.mem_map] at hpr
      obtain ⟨x, hx, hxp⟩ := hpr
      have hfr : (x.id != db.nextId) = true := bne_iff_ne.mpr (hfresh x hx)
      rw [← hxp] at h1 h2 ⊢
      simp only [] at h1 h2 ⊢
      unfold directRejectUpd
      have hb1 : (x.request_id == a.request_id) = true := by simp [h1]
      have hb2 : (x.status == "pending") = true := by simp [h2]
      simp [hb1, hb2, hfr]
  -- the guards are all passed, so the handler reduces to the core dispatch
  unfold supplier_action_on_request
  rw [hrs, hreq]
  simp only [haa, hmm, hcf, Bool.not_true, Bool.and_false, Bool.false_eq_true,
    if_false, if_true]
  cases hsa : (req.status == "supplier_accepted") with
  | false => simp [hsa]
  | true =>
      simp only [hsa, if_true]
      cases hh : (db.offers.filter (fun o => o.request_id == req.id)).head? with
      | none =>
          exfalso
          unfold supplier_action_on_request at hok
          rw [hrs, hreq] at hok
          simp only [haa, hmm, hcf, Bool.not_true, Bool.and_false, Bool.false_eq_true,
            if_false, if_true, hsa, hh] at hok
          exact Except.noConfusion hok
      | some o0 =>
          simp only [hh]
          cases hso : (o0.supplier_id == s.id) with
          | false => simp [hso]
          | true =>
              exfalso
              unfold supplier_action_on_request at hok
              rw [hrs, hreq] at hok
              simp only [haa, hmm, hcf, Bool.not_true, Bool.and_false, Bool.false_eq_true,
                if_false, if_true, hsa, hh, hso] at hok
              exact Except.noConfusion hok

/-- Fixture for the direct-accept claim: request 5 has offer_price 30.00
and quantity 3; supplier 4 has a competing pending offer 7. -/
def reqC4 : RequestPost :=
  { id := 5, customer_id := 1, title := "cake", description := none,
    category := "bakery", offer_price := some 30, quantity := 3,
    status := "open", created_at := 0, updated_at := none }

def dbC4 : DB :=
  { users := [{ id := 1, role := "customer" }, { id := 2, role := "supplier" },
              { id := 4, role := "supplier" }],
    products := [],
    requests := [reqC4],
    offers := [{ id := 7, request_id := 5, supplier_id := 4, proposed_price := 25,
                 message := none, delivery_date := none, status := "pending",
                 created_at := 1, updated_at := none }],
    orders := [],
    nextId := 100 }

def actC4 : SupplierRequestAction :=
  { request_id := 5, supplier_id := 2, action := "accept_request", proposed_price := none }

theorem direct_accept_postconditions_witness :
    ∃ price : Rat, reqC4.offer_price = some price ∧
    ∃ dOff : Offer, ∃ nOrd : Order,
      (supplier_action_on_request dbC4 actC4 9).1.offers.head? = some dOff
      ∧ dOff.status = "accepted" ∧ dOff.proposed_price = price
      ∧ dOff.request_id = actC4.request_id
      ∧ (supplier_action_on_request dbC4 actC4 9).1.orders.head? = some nOrd
      ∧ nOrd.total_price = price ∧ nOrd.quantity = reqC4.quantity
      ∧ nOrd.status = "placed" ∧ nOrd.offer_id = dOff.id ∧ nOrd.request_id = reqC4.id
      ∧ (∀ r2 ∈ (supplier_action_on_request dbC4 actC4 9).1.requests,
          r2.id = reqC4.id → r2.status = "fulfilled")
      ∧ (supplier_action_on_request dbC4 actC4 9).1.offers.length = dbC4.offers.length + 1
      ∧ (∀ pr ∈ dbC4.offers.zip (supplier_action_on_request dbC4 actC4 9).1.offers.tail,
          pr.1.request_id = actC4.request_id → pr.1.status = "pending" →
          pr.2.id = pr.1.id ∧ pr.2.status = "rejected") :=
  direct_accept_postconditions dbC4 actC4 9 reqC4
    "Request accepted directly. Order placed."
    (by decide) (by decide) (by decide) (by decide)

/-! Row-transformation bookkeeping for the accept flow. -/

theorem acceptUpd_id (t r n : Nat) (o : Offer) : (acceptUpd t r n o).id = o.id := by
  unfold acceptUpd
  repeat' split
  all_goals rfl

theorem fulfillReq_id (rid n : Nat) (r : RequestPost) : (fulfillReq rid n r).id = r.id := by
  unfold fulfillReq
  split
  all_goals rfl

theorem confirmOfferUpd_id (t n : Nat) (o : Offer) : (confirmOfferUpd t n o).id = o.id := by
  unfold confirmOfferUpd
  split
  all_goals rfl

/-- Rows touched by the confirm pass carry status "accepted" at the key. -/
theorem mem_map_confirmUpd_status (k now : Nat) (l : List Offer) :
    ∀ o2 ∈ l.map (confirmOfferUpd k now), o2.id = k → o2.status = "accepted" := by
  intro o2 h hid
  rw [List.mem_map] at h
  obtain ⟨y, hy, hyo⟩ := h
  unfold confirmOfferUpd at hyo
  by_cases hc : (y.id == k) = true
  · rw [if_pos hc] at hyo; rw [← hyo]
  · rw [if_neg hc] at hyo
    exact absurd (by rw [hyo, hid]; exact beq_self_eq_true _) hc

/-- A successful commit returns the value it was handed. -/
theorem tryCommit_ok_val {α : Type} (pre cur : DB) (x msg : α)
    (h : (tryCommit pre cur x).2 = Except.ok msg) : x = msg := by
  unfold tryCommit at h
  split at h
  · simpa using h
  · simp at h

/-- Shape of a successful `confirm_offer_and_create_order`: the lookups it
performed, the duplicate-order check that passed, the order it returned,
and the database it left behind. -/
theorem confirm_ok_shape (db : DB) (od : OrderCreateFromOffer) (now : Nat)
    (ord : Order) (h : (confirm_offer_and_create_order db od now).2 = Except.ok ord) :
    ∃ customer off req,
      db.users.find? (fun u => u.id == od.customer_id) = some customer
      ∧ db.offers.find? (fun o => o.id == od.offer_id) = some off
      ∧ db.requests.find? (fun r => r.id == off.request_id) = some req
      ∧ db.orders.find? (fun x => x.offer_id == off.id) = none
      ∧ ord = { id := db.nextId, request_id := req.id, offer_id := off.id,
                customer_id := customer.id, supplier_id := off.supplier_id,
                total_price := off.proposed_price, quantity := req.quantity,
                status := "placed", created_at := now, updated_at := none,
                delivered_at := none }
      ∧ (confirm_offer_and_create_order db od now).1 =
          { db with
            orders := ord :: db.orders,
            offers := db.offers.map (confirmOfferUpd off.id now),
            requests := db.requests.map (fulfillReq req.id now),
            nextId := db.nextId + 1 } := by
  unfold confirm_offer_and_create_order at h ⊢
  split at h
  next heq => simp at h
  next customer heq =>
  split at h
  next heq2 => simp at h
  next off heq2 =>
  split at h
  next heq3 => simp at h
  next req heq3 =>
  split at h
  case isTrue hcm => simp at h
  case isFalse hcm =>
  split at h
  next o2 heq4 => simp at h
  next heq4 =>
  dsimp only at h ⊢
  refine ⟨customer, off, req, heq, heq2, heq3, heq4, ?_, ?_⟩
  · exact (tryCommit_ok_val _ _ _ _ h).symm
  · rw [if_neg hcm]
    rw [tryCommit_ok_fst _ _ _ _ h]
    rw [← tryCommit_ok_val _ _ _ _ h]

/-- Shape of a successful customer accept in `respond_to_offer`: the three
lookups, the status guard, the first commit, and the confirm call that
succeeded, with the final state coming from the confirm call. -/
theorem respond_accept_ok_shape (db : DB) (a : OfferAction) (now : Nat) (retOff : Offer)
    (hrole : a.role = "customer") (hact : a.action = "accept")
    (hok : (respond_to_offer db a now).2 = Except.ok retOff) :
    ∃ off req u ordVal,
      db.offers.find? (fun o => o.id == a.offer_id) = some off
      ∧ db.requests.find? (fun r => r.id == off.request_id) = some req
      ∧ db.users.find? (fun u2 => u2.id == req.customer_id) = some u
      ∧ pcSet off.status = true
      ∧ commitOk (acceptDB1 db off req now) = true
      ∧ (confirm_offer_and_create_order (acceptDB1 db off req now)
          { customer_id := u.id, offer_id := off.id } now).2 = Except.ok ordVal
      ∧ (respond_to_offer db a now).1
          = (confirm_offer_and_create_order (acceptDB1 db off req now)
              { customer_id := u.id, offer_id := off.id } now).1 := by
  unfold respond_to_offer at hok ⊢
  split at hok
  next heq => simp at hok
  next off heq =>
  split at hok
  next heq2 => simp at hok
  next req heq2 =>
  split at hok
  next heq3 => simp at hok
  next u heq3 =>
  split at hok
  case isFalse hr =>
    exact absurd (by rw [hrole]; exact beq_self_eq_true _) hr
  case isTrue hr =>
  split at hok
  case isTrue hnp => simp at hok
  case isFalse hnp =>
  have hpcb : pcSet off.status = true := by
    revert hnp
    cases pcSet off.status <;> simp
  split at hok
  case isFalse hna =>
    exact absurd (by rw [hact]; exact beq_self_eq_true _) hna
  case isTrue hna =>
  dsimp only at hok ⊢
  split at hok
  case isFalse hcmt => simp at hok
  case isTrue hcmt =>
  split at hok
  next v heq4 =>
    refine ⟨off, req, u, v, heq, heq2, heq3, hpcb, hcmt, heq4, ?_⟩
    rw [if_pos hr, if_neg hnp, if_pos hna, if_pos hcmt]
  next e heq4 => simp at hok

/-- C1: when a customer accept succeeds, the post-commit state holds the
accepted offer with status "accepted", the referenced request fulfilled,
every sibling offer whose prior status was pending or countered rejected
(stated positionally through the zip of the pre and post offers tables),
and exactly one order referencing the accepted offer — all in the same
final state. -/
theorem accept_offer_postconditions (db : DB) (a : OfferAction) (now : Nat)
    (off : Offer) (req : RequestPost) (retOff : Offer)
    (hoff : db.offers.find? (fun o => o.id == a.offer_id) = some off)
    (hreq : db.requests.find? (fun r => r.id == off.request_id) = some req)
    (hpc : off.status = "pending" ∨ off.status = "countered")
    (hrole : a.role = "customer") (hact : a.action = "accept")
    (hok : (respond_to_offer db a now).2 = Except.ok retOff) :
    (∀ o2 ∈ (respond_to_offer db a now).1.offers, o2.id = a.offer_id → o2.status = "accepted")
    ∧ (∀ r2 ∈ (respond_to_offer db a now).1.requests, r2.id = req.id → r2.status = "fulfilled")
    ∧ (respond_to_offer db a now).1.offers.length = db.offers.length
    ∧ (∀ pr ∈ db.offers.zip (respond_to_offer db a now).1.offers,
        pr.1.request_id = off.request_id → pr.1.id ≠ a.offer_id →
        (pr.1.status = "pending" ∨ pr.1.status = "countered") →
        pr.2.id = pr.1.id ∧ pr.2.status = "rejected")
    ∧ ((respond_to_offer db a now).1.orders.filter (fun x => x.offer_id == a.offer_id)).length
        = 1 := by
  have hoid : off.id = a.offer_id := by simpa using List.find?_some hoff
  obtain ⟨off2, req2, u, ordVal, hoff2, hreq2, hu, hpcb, hcmt, hconf, hfst⟩ :=
    respond_accept_ok_shape db a now retOff hrole hact hok
  rw [hoff2] at hoff
  injection hoff with hoffeq
  subst off2
  rw [hreq2] at hreq
  injection hreq with hreqeq
  subst req2
  obtain ⟨cust1, off1, req1, hcu1, hof1, hrq1, hex1, hordVal, hc1fst⟩ :=
    confirm_ok_shape (acceptDB1 db off req now)
      { customer_id := u.id, offer_id := off.id } now ordVal hconf
  unfold acceptDB1 at hof1 hrq1 hex1 hc1fst
  dsimp only at hof1 hrq1 hex1 hc1fst hordVal
  -- resolve the confirm-level offer lookup to the accept-updated target row
  rw [find_offer_map (acceptUpd off.id off.request_id now)
      (acceptUpd_id off.id off.request_id now) off.id db.offers] at hof1
  rw [hoid] at hof1
  rw [hoff2] at hof1
  have hfoff : acceptUpd a.offer_id off.request_id now off
      = { off with status := "accepted", updated_at := some now } := by
    unfold acceptUpd
    simp [hoid]
  rw [Option.map_some'] at hof1
  rw [hfoff] at hof1
  injection hof1 with hof1eq
  subst hof1eq
  dsimp only at hrq1 hex1 hordVal hc1fst
  -- resolve the confirm-level request lookup to the fulfilled target row
  rw [find_request_map (fulfillReq req.id now) (fulfillReq_id req.id now)
      off.request_id db.requests] at hrq1
  rw [hreq2, Option.map_some'] at hrq1
  injection hrq1 with hrq1eq
  subst hrq1eq
  try dsimp only at hordVal hc1fst
  rw [fulfillReq_id] at hc1fst
  rw [hoid] at hex1 hordVal hc1fst
  rw [hfst]
  unfold acceptDB1
  rw [hoid]
  rw [hc1fst]
  dsimp only
  refine ⟨?_, ?_, ?_, ?_, ?_⟩
  · exact mem_map_confirmUpd_status a.offer_id now _
  · exact mem_map_fulfill_status req.id now _
  · simp [List.length_map]
  · rw [List.map_map, zip_self_map]
    intro pr hpr h1 h2 h3
    rw [List.mem_map] at hpr
    obtain ⟨x, hx, hxp⟩ := hpr
    subst hxp
    dsimp only [Function.comp] at h1 h2 h3 ⊢
    have hfx : acceptUpd a.offer_id off.request_id now x
        = { x with status := "rejected", updated_at := some now } := by
      unfold acceptUpd
      have hb1 : (x.id == a.offer_id) = false := by
        simp [h2]
      have hb2 : (x.request_id == off.request_id) = true := by simp [h1]
      have hb3 : pcSet x.status = true := by
        rcases h3 with h | h <;> simp [pcSet, h]
      rw [hb1]
      simp [hb2, hb3]
    rw [hfx]
    have hgx : confirmOfferUpd a.offer_id now { x with status := "rejected", updated_at := some now }
        = { x with status := "rejected", updated_at := some now } := by
      unfold confirmOfferUpd
      have : (x.id == a.offer_id) = false := by simp [h2]
      simp [this]
    rw [hgx]
    exact ⟨rfl, rfl⟩
  · rw [hordVal]
    have hnil : db.orders.filter (fun x => x.offer_id == a.offer_id) = [] := by
      rw [List.filter_eq_nil_iff]
      exact fun x hx => by simpa using List.find?_eq_none.mp hex1 x hx
    simp [List.filter_cons, hnil]

/-- Fixture for the accept-postconditions claim: offers 7 and 8 pending on
open request 5; the customer accepts offer 7. -/
def offC1 : Offer :=
  { id := 7, request_id := 5, supplier_id := 2, proposed_price := 45,
    message := none, delivery_date := none, status := "pending",
    created_at := 1, updated_at := none }

def reqC1 : RequestPost :=
  { id := 5, customer_id := 1, title := "cake", description := none,
    category := "bakery", offer_price := some 50, quantity := 2,
    status := "open", created_at := 0, updated_at := none }

def dbC1 : DB :=
  { users := [{ id := 1, role := "customer" }, { id := 2, role := "supplier" },
              { id := 3, role := "supplier" }],
    products := [],
    requests := [reqC1],
    offers := [offC1,
               { id := 8, request_id := 5, supplier_id := 3, proposed_price := 40,
                 message := none, delivery_date := none, status := "pending",
                 created_at := 1, updated_at := none }],
    orders := [],
    nextId := 100 }

def actC1 : OfferAction := { offer_id := 7, action := "accept", role := "customer" }

/-- The refreshed offer returned by the successful accept of offer 7. -/
def retC1 : Offer :=
  { id := 7, request_id := 5, supplier_id := 2, proposed_price := 45,
    message := none, delivery_date := none, status := "accepted",
    created_at := 1, updated_at := some 9 }

theorem accept_offer_postconditions_witness :
    (∀ o2 ∈ (respond_to_offer dbC1 actC1 9).1.offers, o2.id = 7 → o2.status = "accepted")
    ∧ (∀ r2 ∈ (respond_to_offer dbC1 actC1 9).1.requests, r2.id = 5 → r2.status = "fulfilled")
    ∧ (respond_to_offer dbC1 actC1 9).1.offers.length = dbC1.offers.length
    ∧ (∀ pr ∈ dbC1.offers.zip (respond_to_offer dbC1 actC1 9).1.offers,
        pr.1.request_id = 5 → pr.1.id ≠ 7 →
        (pr.1.status = "pending" ∨ pr.1.status = "countered") →
        pr.2.id = pr.1.id ∧ pr.2.status = "rejected")
    ∧ ((respond_to_offer dbC1 actC1 9).1.orders.filter (fun x => x.offer_id == 7)).length = 1 :=
  accept_offer_postconditions dbC1 actC1 9 offC1 reqC1 retC1
    (by decide) (by decide) (Or.inl rfl) rfl rfl (by decide)

end Boneka
